import Mathlib

/-!
Shallow embedding of `state_machine.hpp` (Dugy/state_machine).

The repository is a header-only multi-rate periodic scheduler:
`TimedObject` is the tickable-unit base class, `StateMachine` adds
state-transition bookkeeping, `StateMachineManager` owns the registry of
units, the shared input/output values and the pause counter, and drives one
global tick per firing of the external `LoopingThread` primitive.

Machine integers (`long long`, `int`) are modelled as `Int` and the tick
counter (`int tickOrder_`) as `Nat`; no arithmetic here approaches the
integer width, and the claims quantify over mathematical values, so wrapping
is not modelled.  Pointers to live objects are modelled by passing the
current state of the pointee explicitly.  Concurrency (mutexes, the driving
thread) is out of the embedding: every claim below is about the sequential
effect of one call, which is how the spec states them.
-/

namespace StateMachineRepo

/-! ## TimedObject (state_machine.hpp lines 26-122) -/

/-- The mutable fields of `TimedObject`: `timeOfLastFreeze_` and
`timeIncrease_` (both set by `setupTurn`). -/
structure TimedObjectState where
  timeOfLastFreeze : Int
  timeIncrease : Int
  deriving Repr, DecidableEq

namespace TimedObject

/-- `TimedObject::setupTurn(long long time)` (lines 31-35):
`timeIncrease_ = time - timeOfLastFreeze_; timeOfLastFreeze_ = time;`. -/
def setupTurn (time : Int) (s : TimedObjectState) : TimedObjectState :=
  { timeOfLastFreeze := time, timeIncrease := time - s.timeOfLastFreeze }

/-- `TimedObject::lastPeriod()` (lines 42-45). -/
def lastPeriod (s : TimedObjectState) : Int := s.timeIncrease

/-- `TimedObject::frameTime()` (lines 52-55). -/
def frameTime (s : TimedObjectState) : Int := s.timeOfLastFreeze

end TimedObject

/-! ## TimedObject::Timer (lines 57-101)

A `Timer` stores `since_` and a raw pointer `parent_` to its owning
`TimedObject`.  The pointer is modelled as the flag `active`
(`parent_ != nullptr`); because `time()` dereferences the pointer to read
the CURRENT `timeOfLastFreeze_` of the owner, the embedding of `time()`
takes the current state of the pointee as an explicit argument. -/

structure Timer where
  since : Int
  active : Bool
  deriving Repr, DecidableEq

namespace Timer

/-- The default constructor `Timer()` (lines 69-71): only `parent_` is set
(to null); `since_` is left uninitialized, so the model takes its junk value
as an argument. -/
def default (junk : Int) : Timer := { since := junk, active := false }

/-- `Timer::time()` (lines 78-82): `if(!parent_) return 0; return
parent_->timeOfLastFreeze_ - since_;`.  `parentNow` is the current state of
the owning unit that `parent_` points to. -/
def time (tm : Timer) (parentNow : TimedObjectState) : Int :=
  if tm.active then parentNow.timeOfLastFreeze - tm.since else 0

/-- `Timer::active()` (lines 89-92). -/
def isActive (tm : Timer) : Bool := tm.active

/-- `Timer::deactivate()` (lines 97-100): `parent_ = nullptr;`. -/
def deactivate (tm : Timer) : Timer := { tm with active := false }

end Timer

/-- `TimedObject::makeTimer()` (lines 108-111):
`return Timer(timeOfLastFreeze_, this);`. -/
def TimedObject.makeTimer (s : TimedObjectState) : Timer :=
  { since := s.timeOfLastFreeze, active := true }

/-! ## StateMachine (lines 124-189) -/

/-- `StateMachine::StateChangedType` (lines 127-131). -/
inductive StateChangedType
  | THIS_TICK
  | PREVIOUS_TICK
  | BEFORE
  deriving Repr, DecidableEq

/-- The fields of `StateMachine<Input, Output, State>`: the inherited
`TimedObject` fields plus `stateTimer_`, `stateChanged_` and `state_`.
The in-class initializers (lines 126, 132) set `stateTimer_ = 0` and
`stateChanged_ = THIS_TICK`; `state_` is set by the subclass constructor. -/
structure StateMachineState (State : Type) where
  base : TimedObjectState
  stateTimer : Int
  stateChanged : StateChangedType
  state : State
  deriving Repr, DecidableEq

namespace StateMachine

/-- A freshly constructed `StateMachine` whose subclass constructor set the
initial state `s0`: `stateTimer_ = 0`, `stateChanged_ = THIS_TICK`
(lines 126, 132); the inherited `timeOfLastFreeze_`/`timeIncrease_` are
uninitialized, so the model takes their junk values as arguments. -/
def construct (State : Type) (s0 : State) (junkFreeze junkIncrease : Int) :
    StateMachineState State :=
  { base := { timeOfLastFreeze := junkFreeze, timeIncrease := junkIncrease },
    stateTimer := 0, stateChanged := StateChangedType.THIS_TICK, state := s0 }

/-- `StateMachine::setupTurn(long long time)` (lines 133-141): calls the base
`setupTurn`, accumulates `stateTimer_ += timeIncrease_`, and decays
`stateChanged_` THIS_TICK to PREVIOUS_TICK and PREVIOUS_TICK to BEFORE. -/
def setupTurn {State : Type} (time : Int) (s : StateMachineState State) :
    StateMachineState State :=
  let b := TimedObject.setupTurn time s.base
  { s with
    base := b
    stateTimer := s.stateTimer + b.timeIncrease
    stateChanged :=
      if s.stateChanged = StateChangedType.THIS_TICK then
        StateChangedType.PREVIOUS_TICK
      else if s.stateChanged = StateChangedType.PREVIOUS_TICK then
        StateChangedType.BEFORE
      else s.stateChanged }

/-- The setter `StateMachine::state(State newState)` (lines 162-168):
`if(state_ == newState) return; state_ = newState;
stateChanged_ = THIS_TICK; stateTimer_ = 0;`. -/
def setState {State : Type} [DecidableEq State] (newState : State)
    (s : StateMachineState State) : StateMachineState State :=
  if s.state = newState then s
  else { s with
         state := newState
         stateChanged := StateChangedType.THIS_TICK
         stateTimer := 0 }

/-- The getter `StateMachine::state()` (lines 152-155). -/
def getState {State : Type} (s : StateMachineState State) : State := s.state

/-- `StateMachine::timeInState()` (lines 175-178). -/
def timeInState {State : Type} (s : StateMachineState State) : Int :=
  s.stateTimer

/-- `StateMachine::afterStateChange()` (lines 185-188):
`return (stateChanged_ == StateChangedType::PREVIOUS_TICK);`. -/
def afterStateChange {State : Type} (s : StateMachineState State) : Bool :=
  s.stateChanged = StateChangedType.PREVIOUS_TICK

/-- A sequence of fired ticks for one unit: `setupTurn` applied once per
firing, with the frozen times of the successive ticks. -/
def applyTurns {State : Type} (times : List Int)
    (s : StateMachineState State) : StateMachineState State :=
  times.foldl (fun a t => setupTurn t a) s

end StateMachine

/-! ## StateMachineManager (lines 251-413)

The registry `machines_` holds pairs of a rate divisor and a polymorphic
unit reached through a shared pointer with virtual `setupTurn`/`tick`.  The
embedding replaces virtual dispatch by storing each unit as its internal
state `st` (of a common type `σ`) together with its two method bodies as
functions; a concrete subclass corresponds to concrete values of those
fields. -/

/-- One element of `machines_`: the divisor `period / period_` paired with
the unit (its internal state plus its overridden methods). -/
structure ManagerEntry (I O σ : Type) where
  divisor : Nat
  st : σ
  setupTurn : Int → σ → σ
  tick : I → O → σ → σ × O

/-- The fields of `StateMachineManager` that the tick path touches:
`machines_`, `input_`, `output_`, `tickOrder_`, `inputTrigger_`.
`outputTrigger_` only observes the written-back output (it receives a const
reference and returns void), so it has no effect on this state. -/
structure ManagerState (I O σ : Type) where
  machines : List (ManagerEntry I O σ)
  input : I
  output : O
  tickOrder : Nat
  inputTrigger : Option (I → I)

/-- The local variable `input` of `StateMachineManager::tick` (lines
267-274): the input trigger, when set, first mutates the shared `input_`,
and the local snapshot is then copied from it under the input mutex. -/
def localInput {I O σ : Type} (m : ManagerState I O σ) : I :=
  match m.inputTrigger with
  | some f => f m.input
  | none => m.input

/-- The loop of `StateMachineManager::tick` (lines 276-280): iterate
`machines_` in order; for each entry with `tickOrder_ % divisor == 0`, call
`setupTurn(start)` then `tick(input, output)` on the unit, the single local
`output` threading through the whole iteration.  Returns the updated
registry and the final local output. -/
def runMachines {I O σ : Type} (tickOrder : Nat) (now : Int) (inp : I) :
    List (ManagerEntry I O σ) → O → List (ManagerEntry I O σ) × O
  | [], out => ([], out)
  | e :: rest, out =>
    if tickOrder % e.divisor = 0 then
      let st1 := e.setupTurn now e.st
      let r := e.tick inp out st1
      let tail := runMachines tickOrder now inp rest r.2
      ({ e with st := r.1 } :: tail.1, tail.2)
    else
      let tail := runMachines tickOrder now inp rest out
      (e :: tail.1, tail.2)

namespace StateMachineManager

/-- `StateMachineManager::tick()` (lines 265-288): copy `output_` into a
local value, run the input trigger on the shared `input_`, copy `input_`
into a local snapshot, capture the wall-clock time `now`, run the machine
loop, increment `tickOrder_` once, and write the local output back.  The
wall-clock read is modelled by the argument `now`. -/
def tick {I O σ : Type} (now : Int) (m : ManagerState I O σ) :
    ManagerState I O σ :=
  let input1 := localInput m
  let r := runMachines m.tickOrder now input1 m.machines m.output
  { machines := r.1
    input := input1
    output := r.2
    tickOrder := m.tickOrder + 1
    inputTrigger := m.inputTrigger }

end StateMachineManager

/-- One pass of the vector scan of the remove algorithm at position `read`:
skip a matching element; move-assign a non-matching one onto the write
position (the source slot keeping only its moved-from value) and advance the
write position. -/
def removeScanStep {α : Type} (p : α → Bool) (mv : α → α)
    (acc : Array α × Nat) (read : Nat) : Array α × Nat :=
  match acc.1[read]? with
  | none => acc
  | some x =>
    if p x then acc
    else ((acc.1.setD acc.2 x).setD read (mv x), acc.2 + 1)

/-! ## Registration (lines 316-333)

For the registration calls only the divisor and the identity of the stored
shared pointer matter, so a registry entry is modelled as a pair of the
divisor and an optional unit id (`none` is the null shared pointer, which
is what a moved-from shared pointer becomes). -/

/-- A stored registry pair `(period / period_, shared_ptr)`. -/
abbrev RegEntry := Nat × Option Nat

/-- `StateMachineManager::addTimedObject(int period, shared_ptr added)`
(lines 316-319): `machines_.push_back(std::make_pair(period / period_,
added));` — an unchecked integer division, with no validation that `period`
is a multiple of the base period. -/
def addTimedObject (basePeriod : Nat) (machines : List RegEntry)
    (period : Nat) (added : Option Nat) : List RegEntry :=
  machines ++ [(period / basePeriod, added)]

/-- The moved-from value of a registry pair after `*first = move(*i)`: the
`int` member keeps its value, the moved-from shared pointer becomes null. -/
def movedFromEntry (e : RegEntry) : RegEntry := (e.1, none)

/-- The `std::remove_if`-style algorithm that line 330 invokes on
`machines_` (the call names `std::remove` but passes a predicate, which is
the remove-if algorithm): find the first element satisfying `p`; then scan
the remaining positions, move-assigning each non-matching element forward
over the write position.  Returns the mutated vector together with the new
logical end index — which the caller on line 330 DISCARDS, and no
`erase` follows, so the vector itself (the first component) is all that
persists.  Index accesses are always in bounds during the scan, so `setD`
coincides with the raw element writes. -/
def stdRemoveIf {α : Type} (p : α → Bool) (mv : α → α) (v : Array α) :
    Array α × Nat :=
  match v.toList.findIdx? p with
  | none => (v, v.size)
  | some first =>
    (List.range' (first + 1) (v.size - (first + 1))).foldl
      (removeScanStep p mv) (v, first)

/-- `StateMachineManager::removeTimedObject(shared_ptr removed)` (lines
328-333): runs the remove algorithm with the predicate
`removed == tried.second` and discards its result; `machines_.erase` is
never called, so the registry keeps its size. -/
def removeTimedObject (machines : Array RegEntry) (removed : Option Nat) :
    Array RegEntry :=
  (stdRemoveIf (fun tried => tried.2 = removed) movedFromEntry machines).1

/-! ## pause / unpause (lines 338-364)

Modelled from the spec: the external periodic-invocation primitive
`LoopingThread` (`looping_thread/looping_thread.hpp`, which is not among the
sources) is, per section 6 of the spec, constructed with an interval and a
callback, fires the callback repeatedly on its own thread once constructed,
and stops firing only through its teardown (destruction), after which no
callback is in flight.  The model therefore counts the `LoopingThread`
objects that have been constructed and not destructed (`liveLoops`);
callbacks keep firing as long as at least one is alive.  `loopHeld` is
whether the `unique_ptr loop_` currently owns one; `unique_ptr::release`
drops ownership WITHOUT destructing, while assigning a fresh object into
the `unique_ptr` destructs the previously owned one, if any. -/
structure SchedulerControl where
  paused : Int
  loopHeld : Bool
  liveLoops : Nat
  deriving Repr, DecidableEq

namespace SchedulerControl

/-- The constructor (lines 300-306): `paused_(1)`, no loop yet. -/
def construct : SchedulerControl :=
  { paused := 1, loopHeld := false, liveLoops := 0 }

/-- `StateMachineManager::pause()` (lines 338-346): when running
(`paused_ == 0`), `loop_.release()` — which abandons the owned
`LoopingThread` without destructing it, so its thread keeps firing — and
`paused_ = 1`; otherwise `paused_++`. -/
def pause (s : SchedulerControl) : SchedulerControl :=
  if s.paused = 0 then
    { paused := 1, loopHeld := false, liveLoops := s.liveLoops }
  else { s with paused := s.paused + 1 }

/-- `StateMachineManager::unpause()` (lines 353-364): when `paused_ == 1`,
`loop_ = make_unique<LoopingThread>(...)` constructs a fresh firing loop
(and destructs the previously owned one, if the pointer held any) and
`paused_ = 0`; otherwise `paused_--`. -/
def unpause (s : SchedulerControl) : SchedulerControl :=
  if s.paused = 1 then
    { paused := 0, loopHeld := true,
      liveLoops := s.liveLoops + 1 - (if s.loopHeld then 1 else 0) }
  else { s with paused := s.paused - 1 }

/-- Modelled from the spec: periodic ticks are being fired exactly when at
least one constructed-and-not-destructed `LoopingThread` exists. -/
def firing (s : SchedulerControl) : Bool := decide (0 < s.liveLoops)

end SchedulerControl

/-! ## Lemmas about the transition-recency flag -/

/-- The decay step that `StateMachine::setupTurn` applies to
`stateChanged_`. -/
def decayFlag : StateChangedType → StateChangedType
  | StateChangedType.THIS_TICK => StateChangedType.PREVIOUS_TICK
  | StateChangedType.PREVIOUS_TICK => StateChangedType.BEFORE
  | StateChangedType.BEFORE => StateChangedType.BEFORE

theorem setupTurn_stateChanged {State : Type} (t : Int)
    (s : StateMachineState State) :
    (StateMachine.setupTurn t s).stateChanged = decayFlag s.stateChanged := by
  cases h : s.stateChanged <;>
    simp [StateMachine.setupTurn, h, decayFlag]

theorem applyTurns_nil {State : Type} (s : StateMachineState State) :
    StateMachine.applyTurns [] s = s := rfl

theorem applyTurns_cons {State : Type} (t : Int) (ts : List Int)
    (s : StateMachineState State) :
    StateMachine.applyTurns (t :: ts) s =
      StateMachine.applyTurns ts (StateMachine.setupTurn t s) := rfl

theorem applyTurns_before_absorbing {State : Type} :
    ∀ (ts : List Int) (s : StateMachineState State),
      s.stateChanged = StateChangedType.BEFORE →
      (StateMachine.applyTurns ts s).stateChanged = StateChangedType.BEFORE := by
  intro ts
  induction ts with
  | nil => intro s h; simpa [applyTurns_nil] using h
  | cons t ts ih =>
    intro s h
    rw [applyTurns_cons]
    exact ih _ (by rw [setupTurn_stateChanged, h]; rfl)

theorem afterStateChange_iff_flag {State : Type} (s : StateMachineState State) :
    StateMachine.afterStateChange s = true ↔
      s.stateChanged = StateChangedType.PREVIOUS_TICK := by
  simp [StateMachine.afterStateChange]

/-! ## Claim theorems about the State-Tracking Unit -/

/-- C3: for a State-Tracking Unit, `afterStateChange()` returns true exactly
when the transition-recency flag is changed-previous-tick
(`PREVIOUS_TICK`); starting from the flag value a transition leaves
(`THIS_TICK`), after a run of fired ticks (one `setupTurn` each)
`afterStateChange()` is true precisely when exactly one tick has fired since
the transition — false on the transition tick itself (zero ticks) and false
two or more ticks later; each `setupTurn` decays the flag
`THIS_TICK` to `PREVIOUS_TICK` and `PREVIOUS_TICK` to `BEFORE`, and
`BEFORE` (stable) remains `BEFORE`. -/
theorem afterStateChange_exactly_one_tick_after_transition {State : Type} :
    (∀ s : StateMachineState State,
      StateMachine.afterStateChange s = true ↔
        s.stateChanged = StateChangedType.PREVIOUS_TICK)
    ∧ (∀ (s : StateMachineState State) (ts : List Int),
        s.stateChanged = StateChangedType.THIS_TICK →
        (StateMachine.afterStateChange (StateMachine.applyTurns ts s) = true ↔
          ts.length = 1))
    ∧ (∀ (t : Int) (s : StateMachineState State),
        (s.stateChanged = StateChangedType.THIS_TICK →
          (StateMachine.setupTurn t s).stateChanged =
            StateChangedType.PREVIOUS_TICK)
        ∧ (s.stateChanged = StateChangedType.PREVIOUS_TICK →
          (StateMachine.setupTurn t s).stateChanged =
            StateChangedType.BEFORE)
        ∧ (s.stateChanged = StateChangedType.BEFORE →
          (StateMachine.setupTurn t s).stateChanged =
            StateChangedType.BEFORE)) := by
  refine ⟨fun s => afterStateChange_iff_flag s, ?_, ?_⟩
  · intro s ts h
    match ts with
    | [] =>
      rw [applyTurns_nil, afterStateChange_iff_flag, h]
      simp
    | [t] =>
      rw [applyTurns_cons, applyTurns_nil, afterStateChange_iff_flag,
        setupTurn_stateChanged, h]
      simp [decayFlag]
    | t1 :: t2 :: rest =>
      rw [applyTurns_cons, applyTurns_cons, afterStateChange_iff_flag]
      rw [applyTurns_before_absorbing rest _
        (by rw [setupTurn_stateChanged, setupTurn_stateChanged, h]; rfl)]
      simp
  · intro t s
    refine ⟨fun h => ?_, fun h => ?_, fun h => ?_⟩ <;>
      rw [setupTurn_stateChanged, h] <;> rfl

/-- Closed instance of the hypotheses of the previous theorem: a unit whose
flag a transition set to `THIS_TICK` answers `afterStateChange()` true after
exactly one fired tick. -/
theorem afterStateChange_exactly_one_tick_after_transition_witness :
    StateMachine.afterStateChange
      (StateMachine.applyTurns [5]
        (StateMachine.construct Bool false 0 0)) = true :=
  ((@afterStateChange_exactly_one_tick_after_transition Bool).2.1
    (StateMachine.construct Bool false 0 0) [5] rfl).mpr rfl

/-- C4: `state(newState)` with `newState` differing from the current state
sets the state to `newState`, resets `stateTimer_` to 0 (so
`timeInState()` reports 0 immediately) and sets the transition-recency flag
to just-changed (`THIS_TICK`). -/
theorem state_transition_resets (State : Type) [DecidableEq State]
    (s : StateMachineState State) (newState : State)
    (h : s.state ≠ newState) :
    (StateMachine.setState newState s).state = newState
    ∧ StateMachine.timeInState (StateMachine.setState newState s) = 0
    ∧ (StateMachine.setState newState s).stateTimer = 0
    ∧ (StateMachine.setState newState s).stateChanged =
        StateChangedType.THIS_TICK := by
  simp [StateMachine.setState, StateMachine.timeInState, if_neg h]

/-- Closed instance of C4 at a concrete transition. -/
theorem state_transition_resets_witness :
    (StateMachine.setState true (StateMachine.construct Bool false 3 4)).state
        = true
    ∧ StateMachine.timeInState
        (StateMachine.setState true (StateMachine.construct Bool false 3 4)) = 0
    ∧ (StateMachine.setState true
        (StateMachine.construct Bool false 3 4)).stateTimer = 0
    ∧ (StateMachine.setState true
        (StateMachine.construct Bool false 3 4)).stateChanged =
        StateChangedType.THIS_TICK :=
  state_transition_resets Bool (StateMachine.construct Bool false 3 4) true
    (by decide)

/-- C5: assigning the current state again is a complete no-op — the whole
unit state (current state, `stateTimer_`, hence `timeInState()`, and the
transition-recency flag) is unchanged; in particular a repeated
`state(X)` right after a `state(X)` changes nothing, so `timeInState()`
keeps accumulating as if the second call had not happened. -/
theorem state_noop_on_equal (State : Type) [DecidableEq State]
    (s : StateMachineState State) (X : State) :
    StateMachine.setState (StateMachine.getState s) s = s
    ∧ StateMachine.setState X (StateMachine.setState X s) =
        StateMachine.setState X s := by
  constructor
  · simp [StateMachine.setState, StateMachine.getState]
  · by_cases h : s.state = X
    · simp [StateMachine.setState, h]
    · simp [StateMachine.setState, h]

/-- C6: a timer minted by `makeTimer()` while the owning unit held frozen
time `T`, read once the owner's frozen time is `T + k`, reports `k`; a
default-constructed timer (null parent, junk snapshot) and a deactivated
timer always report 0, whatever the owner's clock says. -/
theorem timer_reports_elapsed_and_unbound_zero
    (T k inc inc2 junk : Int) (o2 : TimedObjectState) (tm : Timer) :
    Timer.time
      (TimedObject.makeTimer { timeOfLastFreeze := T, timeIncrease := inc })
      { timeOfLastFreeze := T + k, timeIncrease := inc2 } = k
    ∧ Timer.time (Timer.default junk) o2 = 0
    ∧ Timer.time (Timer.deactivate tm) o2 = 0 := by
  refine ⟨?_, ?_, ?_⟩ <;>
    simp [Timer.time, TimedObject.makeTimer, Timer.default, Timer.deactivate]

/-- C10: a freshly constructed State-Tracking Unit, on which no differing
state was ever assigned, still answers `afterStateChange()` true during its
first fired tick: the in-class initializer sets the flag to `THIS_TICK`
at construction, and the first `setupTurn` decays it to `PREVIOUS_TICK`,
which is exactly what `afterStateChange()` tests.  Before the first
`setupTurn` it answers false. -/
theorem afterStateChange_true_on_first_tick (State : Type) (s0 : State)
    (j1 j2 t : Int) :
    StateMachine.afterStateChange
      (StateMachine.setupTurn t (StateMachine.construct State s0 j1 j2)) = true
    ∧ StateMachine.afterStateChange
        (StateMachine.construct State s0 j1 j2) = false
    ∧ (StateMachine.construct State s0 j1 j2).stateChanged =
        StateChangedType.THIS_TICK := by
  refine ⟨?_, rfl, rfl⟩
  rw [afterStateChange_iff_flag, setupTurn_stateChanged]
  rfl

/-! ## Scheduler dispatch: probe units

To observe which units the scheduler invokes, and in which order it calls
their methods, the theorems below register probe units that log every
`setupTurn` and `tick` call into their own internal state. -/

inductive ProbeEvent
  | setupCall
  | tickCall
  deriving Repr, DecidableEq

/-- A probe unit with rate divisor `p.1` and event log `p.2`: its
`setupTurn` appends `setupCall` and its `tick` appends `tickCall` to the
log, leaving the shared output untouched. -/
def probeEntry {I O : Type} (p : Nat × List ProbeEvent) :
    ManagerEntry I O (List ProbeEvent) :=
  { divisor := p.1, st := p.2,
    setupTurn := fun _ s => s ++ [ProbeEvent.setupCall],
    tick := fun _ out s => (s ++ [ProbeEvent.tickCall], out) }

theorem runMachines_probe {I O : Type} (t : Nat) (now : Int) (inp : I) :
    ∀ (ms : List (Nat × List ProbeEvent)) (out : O),
      (runMachines t now inp (ms.map probeEntry) out).1.map
          (fun e => (e.divisor, e.st)) =
        ms.map (fun p => (p.1,
          p.2 ++ if t % p.1 = 0 then
            [ProbeEvent.setupCall, ProbeEvent.tickCall] else [])) := by
  intro ms
  induction ms with
  | nil => intro out; rfl
  | cons p rest ih =>
    intro out
    by_cases h : t % p.1 = 0
    · simp [runMachines, probeEntry, h, ih]
    · simp [runMachines, probeEntry, h, ih]

/-- C1: one global tick invokes a registered unit — `setupTurn` first, then
`tick`, and nothing else — exactly when the current tick counter `t`
satisfies `t % d = 0` for the rate divisor `d` the unit was registered
with: for any registry of probe units, the per-unit logs after the tick
extend the old logs by `[setupCall, tickCall]` for exactly the due units
and are unchanged for the rest, with divisors intact; and whatever the
registry (second conjunct, any unit type), the tick counter grows by
exactly one per global tick. -/
theorem scheduler_fires_iff_divisor_divides {I O : Type}
    (ms : List (Nat × List ProbeEvent)) (i0 : I) (o0 : O) (t : Nat)
    (now : Int) (trig : Option (I → I)) :
    ((StateMachineManager.tick now
        { machines := ms.map probeEntry, input := i0, output := o0,
          tickOrder := t, inputTrigger := trig }).machines.map
        (fun e => (e.divisor, e.st)) =
      ms.map (fun p => (p.1,
        p.2 ++ if t % p.1 = 0 then
          [ProbeEvent.setupCall, ProbeEvent.tickCall] else [])))
    ∧ (∀ (σ : Type) (m : ManagerState I O σ) (now2 : Int),
        (StateMachineManager.tick now2 m).tickOrder = m.tickOrder + 1) := by
  constructor
  · exact runMachines_probe t now _ ms o0
  · intro σ m now2
    rfl

/-! ## Scheduler dispatch: the output accumulator -/

/-- The output of one global tick as the spec words the tick algorithm:
start from a local copy of the previous shared output and fold, in
registration order, the tick operation of every due unit (its `setupTurn`
applied first), every unit receiving the same locally copied input
snapshot.  Stated separately from `StateMachineManager.tick` so that the
code's loop can be proved to refine it. -/
def specTickOutput {I O σ : Type} (now : Int) (m : ManagerState I O σ) : O :=
  (m.machines.filter (fun e => decide (m.tickOrder % e.divisor = 0))).foldl
    (fun out e => (e.tick (localInput m) out (e.setupTurn now e.st)).2)
    m.output

theorem runMachines_output {I O σ : Type} (t : Nat) (now : Int) (inp : I) :
    ∀ (ms : List (ManagerEntry I O σ)) (out : O),
      (runMachines t now inp ms out).2 =
        (ms.filter (fun e => decide (t % e.divisor = 0))).foldl
          (fun o e => (e.tick inp o (e.setupTurn now e.st)).2) out := by
  intro ms
  induction ms with
  | nil => intro out; rfl
  | cons e rest ih =>
    intro out
    by_cases h : t % e.divisor = 0
    · simp [runMachines, List.filter_cons, h, ih]
    · simp [runMachines, List.filter_cons, h, ih]

/-- A unit that mutates the shared output by appending 7. -/
def writerEntry : ManagerEntry Unit (List Nat) (List Nat) :=
  { divisor := 1, st := [], setupTurn := fun _ s => s,
    tick := fun _ out _ => ([], out ++ [7]) }

/-- A unit that records into its own state the output value handed to it. -/
def observerEntry : ManagerEntry Unit (List Nat) (List Nat) :=
  { divisor := 1, st := [], setupTurn := fun _ s => s,
    tick := fun _ out _ => (out, out) }

/-- Two units sharing divisor 1, the writer registered before the
observer. -/
def sharedDivisorManager : ManagerState Unit (List Nat) (List Nat) :=
  { machines := [writerEntry, observerEntry], input := (), output := [],
    tickOrder := 0, inputTrigger := none }

/-- C2: after one global tick the shared output equals the fold, in
registration order, of the due units over a local copy of the previous
shared output, every unit receiving the same locally copied input snapshot
(first conjunct, for every manager state); and because the output is one
accumulator threaded through the iteration, a unit sharing a divisor with
an earlier unit observes its mutation within the same tick: in the
concrete two-unit registry the observer sees the 7 the writer appended,
and the written-back shared output carries it too. -/
theorem tick_output_is_ordered_fold_of_due_units :
    (∀ (I O σ : Type) (now : Int) (m : ManagerState I O σ),
      (StateMachineManager.tick now m).output = specTickOutput now m)
    ∧ (StateMachineManager.tick 0 sharedDivisorManager).machines.map
        (fun e => e.st) = [[], [7]]
    ∧ (StateMachineManager.tick 0 sharedDivisorManager).output = [7] := by
  refine ⟨?_, rfl, rfl⟩
  intro I O σ now m
  exact runMachines_output m.tickOrder now (localInput m) m.machines m.output

/-! ## Registration and pause claim theorems -/

/-- C8 is refuted by the code: `addTimedObject` performs no validation at
all — registering a 250 ms period against a 100 ms base period, which is
not an exact multiple, is silently accepted and the divisor is truncated by
integer division to 2 (an effective period of 200 ms), the entry being
appended to the registry. -/
theorem addTimedObject_truncates_nonmultiple_period :
    ¬((250 : Nat) % 100 = 0)
    ∧ addTimedObject 100 [] 250 (some 7) = [(2, some 7)]
    ∧ (2 : Nat) * 100 ≠ 250 := by
  refine ⟨by decide, rfl, by decide⟩

theorem removeScanStep_size {α : Type} (p : α → Bool) (mv : α → α)
    (acc : Array α × Nat) (read : Nat) :
    ((removeScanStep p mv acc read).1).size = acc.1.size := by
  unfold removeScanStep
  cases h : acc.1[read]? with
  | none => rfl
  | some x =>
    by_cases hp : p x
    · simp [hp]
    · simp [hp, Array.size_setD]

theorem stdRemoveIf_fold_size {α : Type} (p : α → Bool) (mv : α → α) :
    ∀ (l : List Nat) (acc : Array α × Nat),
      ((l.foldl (removeScanStep p mv) acc).1).size = acc.1.size := by
  intro l
  induction l with
  | nil => intro acc; rfl
  | cons r rest ih =>
    intro acc
    rw [List.foldl_cons, ih, removeScanStep_size]

theorem stdRemoveIf_size {α : Type} (p : α → Bool) (mv : α → α)
    (v : Array α) :
    ((stdRemoveIf p mv v).1).size = v.size := by
  unfold stdRemoveIf
  cases h : v.toList.findIdx? p with
  | none => rfl
  | some first => exact stdRemoveIf_fold_size p mv _ _

/-- C9 is refuted by the code: `removeTimedObject` runs the remove
algorithm but discards its result and never erases, so the registry keeps
its size (third conjunct, every registry); on a one-entry registry holding
exactly the unit being removed the registry is bit-for-bit unchanged — the
entry is still present (first conjunct); on a two-entry registry the
matched entry is overwritten but a moved-from junk pair with a null unit
handle stays behind in its place (second conjunct). -/
theorem removeTimedObject_leaves_registry_unchanged :
    removeTimedObject #[(1, some 7)] (some 7) = #[(1, some 7)]
    ∧ removeTimedObject #[(1, some 7), (2, some 8)] (some 7) =
        #[(2, some 8), (2, none)]
    ∧ (∀ (v : Array RegEntry) (r : Option Nat),
        (removeTimedObject v r).size = v.size) := by
  refine ⟨by decide, by decide, ?_⟩
  intro v r
  exact stdRemoveIf_size _ _ v

/-- C7 is refuted by the code: pausing a running scheduler executes
`loop_.release()`, which abandons the owned periodic loop object without
destructing it, so — with the periodic-invocation primitive modelled from
the spec as firing until destructed — ticks keep firing after the first
`pause()` even though the depth counter says paused (first two conjuncts);
after pause-pause-unpause the depth still says paused yet firing never
stopped (third and fourth conjuncts); and the second `unpause()`
constructs a second loop beside the leaked one (fifth conjunct). -/
theorem pause_does_not_stop_firing :
    (SchedulerControl.pause
        (SchedulerControl.unpause SchedulerControl.construct)).paused = 1
    ∧ SchedulerControl.firing
        (SchedulerControl.pause
          (SchedulerControl.unpause SchedulerControl.construct)) = true
    ∧ (SchedulerControl.unpause (SchedulerControl.pause
        (SchedulerControl.pause
          (SchedulerControl.unpause SchedulerControl.construct)))).paused = 1
    ∧ SchedulerControl.firing
        (SchedulerControl.unpause (SchedulerControl.pause
          (SchedulerControl.pause
            (SchedulerControl.unpause SchedulerControl.construct)))) = true
    ∧ (SchedulerControl.unpause (SchedulerControl.unpause
        (SchedulerControl.pause (SchedulerControl.pause
          (SchedulerControl.unpause
            SchedulerControl.construct))))).liveLoops = 2 := by
  decide

end StateMachineRepo
